import Mathlib

/-!
Verification development for the VizinhoAlert client (TypeScript sources).

Strings are modelled as lists of Unicode code points (`List Nat`): a JavaScript
string is a sequence of code points, and all the functions under scrutiny act
pointwise on code points.  Case conversion is modelled on the ASCII range,
which covers every character class the program manipulates (plates, alert-type
identifiers, QR tokens).

The embedding covers:
 * src/lib/licensePlate.ts  — normalizeLicensePlate, PLATE_RULES,
   detectPlateCountry, validateLicensePlate, getLicensePlateError
 * src/unnamed/part_005     — the older plate validator (namespace Part005)
 * src/lib/constants/alertTypes.ts (the alert-type half of the storage module)
   — ALERT_TYPES, ALERT_TYPE_MAP, normalizeAlertType
 * src/lib/api.ts           — the alert-type normalization performed by
   createAlert when building its payload
 * src/app/settings.tsx     — extractQrToken
 * src/types/alerts.ts and src/unnamed/part_004 — the radius constants
-/

/-- JavaScript `\s` (and `String.prototype.trim`) white-space set, by code
point: TAB LF VT FF CR SPACE NBSP OGHAM-SP, U+2000–U+200A, LS, PS, NNBSP,
MMSP, IDEOGRAPHIC SPACE, BOM. -/
def jsWs (n : Nat) : Bool :=
  n == 9 || n == 10 || n == 11 || n == 12 || n == 13 || n == 32 ||
  n == 160 || n == 5760 || (decide (8192 ≤ n) && decide (n ≤ 8202)) ||
  n == 8232 || n == 8233 || n == 8239 || n == 8287 || n == 12288 || n == 65279

/-- `String.prototype.trim`: drop white space from both ends. -/
def jsTrim (l : List Nat) : List Nat :=
  ((l.dropWhile jsWs).reverse.dropWhile jsWs).reverse

/-- `String.prototype.toUpperCase`, pointwise on the ASCII range. -/
def upNat (n : Nat) : Nat :=
  if 97 ≤ n ∧ n ≤ 122 then n - 32 else n

/-- `String.prototype.toLowerCase`, pointwise on the ASCII range. -/
def lowNat (n : Nat) : Nat :=
  if 65 ≤ n ∧ n ≤ 90 then n + 32 else n

/-- Characters removed by licensePlate.ts `replace(/[\s\-\.\_]/g, "")`:
white space, dash (45), dot (46), underscore (95).  `keepChar n` holds when
`n` survives the replacement. -/
def keepChar (n : Nat) : Bool :=
  !(jsWs n || n == 45 || n == 46 || n == 95)

/-- src/lib/licensePlate.ts `normalizeLicensePlate`: empty-string guard,
uppercase, trim, strip white space / dashes / dots / underscores. -/
def normalizeLicensePlate (plate : List Nat) : List Nat :=
  if plate.isEmpty then []
  else (jsTrim (plate.map upNat)).filter keepChar

/-- Character classes occurring in the plate regular expressions. -/
inductive CharClass
  | alpha   -- [A-Z]
  | digit   -- [0-9]
  | alnum   -- [A-Z0-9]
deriving DecidableEq

def classPred : CharClass → Nat → Bool
  | .alpha, n => decide (65 ≤ n) && decide (n ≤ 90)
  | .digit, n => decide (48 ≤ n) && decide (n ≤ 57)
  | .alnum, n => (decide (65 ≤ n) && decide (n ≤ 90)) ||
                 (decide (48 ≤ n) && decide (n ≤ 57))

/-- One bounded repetition `C{lo,hi}` of a character class: every pattern in
the source is an anchored concatenation of such items. -/
structure RegexItem where
  cls : CharClass
  lo : Nat
  hi : Nat
deriving DecidableEq

/-- Anchored match of a concatenation of bounded character-class repetitions
(`^C₁{l₁,h₁}…Cₖ{lₖ,hₖ}$`): the string splits into consecutive blocks of the
required classes and sizes.  The existential split is realised by trying every
block size, which is exactly the backtracking a regex engine performs. -/
def matchItems : List RegexItem → List Nat → Bool
  | [], s => s.isEmpty
  | it :: rest, s =>
    (List.range (it.hi + 1)).any fun k =>
      decide (it.lo ≤ k) && decide (k ≤ s.length) &&
      (s.take k).all (classPred it.cls) && matchItems rest (s.drop k)

/-- Shorthand for an alphabetic block `[A-Z]{lo,hi}`. -/
def al (lo hi : Nat) : RegexItem := ⟨.alpha, lo, hi⟩

/-- Shorthand for a digit block `[0-9]{lo,hi}`. -/
def dg (lo hi : Nat) : RegexItem := ⟨.digit, lo, hi⟩

/-- Shorthand for an alphanumeric block `[A-Z0-9]{lo,hi}`. -/
def ad (lo hi : Nat) : RegexItem := ⟨.alnum, lo, hi⟩

/-- Country codes appearing in src/lib/licensePlate.ts `PLATE_RULES`. -/
inductive Country
  | GB | IE | PT | ES | FR | DE | IT | NL | BE | CH | AT | SE | NO | DK | PL
deriving DecidableEq

/-- One entry of `PLATE_RULES`.  The source also carries a display
`countryName` and an `example` string; they play no part in any claim and are
kept in comments next to each rule. -/
structure PlateRule where
  countryCode : Country
  pattern : List RegexItem
deriving DecidableEq

/-- src/lib/licensePlate.ts `PLATE_RULES`, in source order. -/
def PLATE_RULES : List PlateRule := [
  -- GB "Great Britain (DVLA)"   ^[A-Z]{2}[0-9]{2}[A-Z]{3}$      example AB12CDE
  ⟨.GB, [al 2 2, dg 2 2, al 3 3]⟩,
  -- GB "Great Britain (Older)"  ^[A-Z][0-9]{1,3}[A-Z]{3}$       example A123BCD
  ⟨.GB, [al 1 1, dg 1 3, al 3 3]⟩,
  -- GB "Great Britain (Older)"  ^[A-Z]{3}[0-9]{1,3}[A-Z]$       example ABC123D
  ⟨.GB, [al 3 3, dg 1 3, al 1 1]⟩,
  -- IE "Ireland"                ^[0-9]{2,3}[A-Z]{1,2}[0-9]{1,6}$ example 12D12345
  ⟨.IE, [dg 2 3, al 1 2, dg 1 6]⟩,
  -- PT "Portugal"               ^[A-Z]{2}[0-9]{2}[A-Z]{2}$      example AA12BB
  ⟨.PT, [al 2 2, dg 2 2, al 2 2]⟩,
  -- PT "Portugal"               ^[0-9]{2}[A-Z]{2}[0-9]{2}$      example 12AA34
  ⟨.PT, [dg 2 2, al 2 2, dg 2 2]⟩,
  -- ES "Spain"                  ^[0-9]{4}[A-Z]{3}$              example 1234ABC
  ⟨.ES, [dg 4 4, al 3 3]⟩,
  -- FR "France"                 ^[A-Z]{2}[0-9]{3}[A-Z]{2}$      example AA123AA
  ⟨.FR, [al 2 2, dg 3 3, al 2 2]⟩,
  -- DE "Germany"                ^[A-Z]{1,3}[A-Z]{1,2}[0-9]{1,4}$ example BAB1234
  ⟨.DE, [al 1 3, al 1 2, dg 1 4]⟩,
  -- DE "Germany"                ^[A-Z]{1,3}[0-9]{1,4}$          example B1234
  ⟨.DE, [al 1 3, dg 1 4]⟩,
  -- IT "Italy"                  ^[A-Z]{2}[0-9]{3}[A-Z]{2}$      example AB123CD
  ⟨.IT, [al 2 2, dg 3 3, al 2 2]⟩,
  -- NL "Netherlands"            ^[A-Z]{2}[0-9]{2}[A-Z]{2}$      example AB12CD
  ⟨.NL, [al 2 2, dg 2 2, al 2 2]⟩,
  -- NL "Netherlands"            ^[0-9]{2}[A-Z]{3}[0-9]$         example 12ABC3
  ⟨.NL, [dg 2 2, al 3 3, dg 1 1]⟩,
  -- NL "Netherlands"            ^[0-9][A-Z]{3}[0-9]{2}$         example 1ABC23
  ⟨.NL, [dg 1 1, al 3 3, dg 2 2]⟩,
  -- BE "Belgium"                ^[0-9][A-Z]{3}[0-9]{3}$         example 1ABC123
  ⟨.BE, [dg 1 1, al 3 3, dg 3 3]⟩,
  -- BE "Belgium"                ^[A-Z]{3}[0-9]{3}$              example ABC123
  ⟨.BE, [al 3 3, dg 3 3]⟩,
  -- CH "Switzerland"            ^[A-Z]{2}[0-9]{1,6}$            example ZH123456
  ⟨.CH, [al 2 2, dg 1 6]⟩,
  -- AT "Austria"                ^[A-Z]{1,2}[0-9]{1,5}[A-Z]{1,2}$ example W12345A
  ⟨.AT, [al 1 2, dg 1 5, al 1 2]⟩,
  -- SE "Sweden"                 ^[A-Z]{3}[0-9]{2}[A-Z0-9]$      example ABC12D
  ⟨.SE, [al 3 3, dg 2 2, ad 1 1]⟩,
  -- NO "Norway"                 ^[A-Z]{2}[0-9]{5}$              example AB12345
  ⟨.NO, [al 2 2, dg 5 5]⟩,
  -- DK "Denmark"                ^[A-Z]{2}[0-9]{5}$              example AB12345
  ⟨.DK, [al 2 2, dg 5 5]⟩,
  -- PL "Poland"                 ^[A-Z]{2,3}[A-Z0-9]{4,5}$       example WA12345
  ⟨.PL, [al 2 3, ad 4 5]⟩]

/-- `rule.pattern.test(candidate)` for one rule. -/
def ruleMatches (r : PlateRule) (s : List Nat) : Bool :=
  matchItems r.pattern s

/-- src/lib/licensePlate.ts `detectPlateCountry`: normalize, then the first
rule of `PLATE_RULES` whose pattern tests true wins.  The source returns the
rule's `{countryCode, countryName}`; the name is display metadata determined
by the rule, so the embedding returns the country code. -/
def detectPlateCountry (plate : List Nat) : Option Country :=
  (PLATE_RULES.find? fun r => ruleMatches r (normalizeLicensePlate plate)).map
    (fun r => r.countryCode)

/-- Result record of `validateLicensePlate` (the source's `countryName`
display string is omitted, as in `detectPlateCountry`). -/
structure PlateValidation where
  isValid : Bool
  matchedCountry : Option Country
  normalized : List Nat
deriving DecidableEq

/-- src/lib/licensePlate.ts `validateLicensePlate`: normalize, reject the
empty string, reject normalized lengths outside [4,10], then delegate to
`detectPlateCountry` on the normalized plate. -/
def validateLicensePlate (plate : List Nat) : PlateValidation :=
  if (normalizeLicensePlate plate).isEmpty then
    ⟨false, none, normalizeLicensePlate plate⟩
  else if (normalizeLicensePlate plate).length < 4 ∨
          10 < (normalizeLicensePlate plate).length then
    ⟨false, none, normalizeLicensePlate plate⟩
  else
    match detectPlateCountry (normalizeLicensePlate plate) with
    | some c => ⟨true, some c, normalizeLicensePlate plate⟩
    | none => ⟨false, none, normalizeLicensePlate plate⟩

/-- src/lib/licensePlate.ts `isValidLicensePlate`. -/
def isValidLicensePlate (plate : List Nat) : Bool :=
  (validateLicensePlate plate).isValid

/-- The four error messages `getLicensePlateError` can produce, in source
order: "Please enter a license plate", "License plate is too short",
"License plate is too long", "Enter a valid UK or European license plate". -/
inductive PlateError
  | empty | tooShort | tooLong | invalid
deriving DecidableEq

/-- src/lib/licensePlate.ts `getLicensePlateError`. -/
def getLicensePlateError (plate : List Nat) : Option PlateError :=
  if (normalizeLicensePlate plate).isEmpty then some .empty
  else if (normalizeLicensePlate plate).length < 4 then some .tooShort
  else if 10 < (normalizeLicensePlate plate).length then some .tooLong
  else if (validateLicensePlate plate).isValid then none
  else some .invalid

namespace Part005

/-!
src/unnamed/part_005: the older plate validator that coexists with
src/lib/licensePlate.ts.  Its normalizer does not strip underscores, and its
pattern table covers only UK, PT, FR, DE, ES, IT, NL (with alternation inside
a single regular expression per country).
-/

/-- Characters removed by part_005's `replace(/[\s\-\.]/g, "")`: white space,
dash (45), dot (46) — no underscore. -/
def keepChar (n : Nat) : Bool :=
  !(jsWs n || n == 45 || n == 46)

/-- part_005 `normalizeLicensePlate`: uppercase, trim, strip white space /
dashes / dots (underscores survive). -/
def normalizeLicensePlate (plate : List Nat) : List Nat :=
  if plate.isEmpty then []
  else (jsTrim (plate.map upNat)).filter Part005.keepChar

/-- Country keys of part_005's `LICENSE_PLATE_PATTERNS` record. -/
inductive Country
  | UK | PT | FR | DE | ES | IT | NL
deriving DecidableEq

/-- part_005 `LICENSE_PLATE_PATTERNS`, in insertion order.  Each country maps
to one regular expression whose top level is an alternation `(?:…|…)` of
anchored concatenations; the alternatives are listed here. -/
def LICENSE_PLATE_PATTERNS : List (Part005.Country × List (List RegexItem)) := [
  -- UK ^(?:[A-Z]{2}[0-9]{2}[A-Z]{3}|[A-Z][0-9]{1,3}[A-Z]{3}|[A-Z]{3}[0-9]{1,3}[A-Z])$
  (.UK, [[al 2 2, dg 2 2, al 3 3], [al 1 1, dg 1 3, al 3 3], [al 3 3, dg 1 3, al 1 1]]),
  -- PT ^(?:[A-Z]{2}[0-9]{2}[A-Z]{2}|[0-9]{2}[A-Z]{2}[0-9]{2})$
  (.PT, [[al 2 2, dg 2 2, al 2 2], [dg 2 2, al 2 2, dg 2 2]]),
  -- FR ^[A-Z]{2}[0-9]{3}[A-Z]{2}$
  (.FR, [[al 2 2, dg 3 3, al 2 2]]),
  -- DE ^[A-Z]{1,3}[0-9]{1,4}$
  (.DE, [[al 1 3, dg 1 4]]),
  -- ES ^[0-9]{4}[A-Z]{3}$
  (.ES, [[dg 4 4, al 3 3]]),
  -- IT ^[A-Z]{2}[0-9]{3}[A-Z]{2}$
  (.IT, [[al 2 2, dg 3 3, al 2 2]]),
  -- NL ^(?:[A-Z]{2}[0-9]{2}[A-Z]{2}|[0-9]{2}[A-Z]{3}[0-9])$
  (.NL, [[al 2 2, dg 2 2, al 2 2], [dg 2 2, al 3 3, dg 1 1]])]

/-- `pattern.test(candidate)` for a part_005 pattern: some alternative of the
alternation matches. -/
def patternMatches (alts : List (List RegexItem)) (s : List Nat) : Bool :=
  alts.any fun items => matchItems items s

/-- Result record of part_005 `validateLicensePlate` (it has no
`countryName` field). -/
structure PlateValidation where
  isValid : Bool
  matchedCountry : Option Part005.Country
  normalized : List Nat
deriving DecidableEq

/-- part_005 `validateLicensePlate`: normalize, reject the empty string,
reject normalized lengths outside [4,10], then try each country pattern in
record insertion order. -/
def validateLicensePlate (plate : List Nat) : Part005.PlateValidation :=
  if (Part005.normalizeLicensePlate plate).isEmpty then
    ⟨false, none, Part005.normalizeLicensePlate plate⟩
  else if (Part005.normalizeLicensePlate plate).length < 4 ∨
          10 < (Part005.normalizeLicensePlate plate).length then
    ⟨false, none, Part005.normalizeLicensePlate plate⟩
  else
    match LICENSE_PLATE_PATTERNS.find? fun cp =>
        Part005.patternMatches cp.2 (Part005.normalizeLicensePlate plate) with
    | some cp => ⟨true, some cp.1, Part005.normalizeLicensePlate plate⟩
    | none => ⟨false, none, Part005.normalizeLicensePlate plate⟩

end Part005

namespace AlertTypes

/-!
src/lib/constants/alertTypes.ts (imported by src/lib/api.ts and re-exported
by src/unnamed/part_004): the closed alert-type enumeration and the
normalization boundary `normalizeAlertType`.
-/

/-- The `AlertType` union (src/types/alerts.ts) / the element type derived
from the `ALERT_TYPES` array (constants module): the eight canonical
variants. -/
inductive AlertType
  | lights_on | window_open | alarm_triggered | parking_issue
  | damage_spotted | towing_risk | obstruction | general
deriving DecidableEq

/-- The canonical lowercase spelling of each variant, as a code-point list:
"lights_on", "window_open", "alarm_triggered", "parking_issue",
"damage_spotted", "towing_risk", "obstruction", "general". -/
def alertTypeCodes : AlertType → List Nat
  | .lights_on => [108, 105, 103, 104, 116, 115, 95, 111, 110]
  | .window_open => [119, 105, 110, 100, 111, 119, 95, 111, 112, 101, 110]
  | .alarm_triggered => [97, 108, 97, 114, 109, 95, 116, 114, 105, 103, 103, 101, 114, 101, 100]
  | .parking_issue => [112, 97, 114, 107, 105, 110, 103, 95, 105, 115, 115, 117, 101]
  | .damage_spotted => [100, 97, 109, 97, 103, 101, 95, 115, 112, 111, 116, 116, 101, 100]
  | .towing_risk => [116, 111, 119, 105, 110, 103, 95, 114, 105, 115, 107]
  | .obstruction => [111, 98, 115, 116, 114, 117, 99, 116, 105, 111, 110]
  | .general => [103, 101, 110, 101, 114, 97, 108]

/-- The eight variants in the order of the source array. -/
def alertTypeList : List AlertType :=
  [.lights_on, .window_open, .alarm_triggered, .parking_issue,
   .damage_spotted, .towing_risk, .obstruction, .general]

/-- constants module `ALERT_TYPES`: the canonical list of alert-type strings,
lowercase, in source order. -/
def ALERT_TYPES : List (List Nat) := [
  [108, 105, 103, 104, 116, 115, 95, 111, 110],                                -- "lights_on"
  [119, 105, 110, 100, 111, 119, 95, 111, 112, 101, 110],                      -- "window_open"
  [97, 108, 97, 114, 109, 95, 116, 114, 105, 103, 103, 101, 114, 101, 100],    -- "alarm_triggered"
  [112, 97, 114, 107, 105, 110, 103, 95, 105, 115, 115, 117, 101],             -- "parking_issue"
  [100, 97, 109, 97, 103, 101, 95, 115, 112, 111, 116, 116, 101, 100],         -- "damage_spotted"
  [116, 111, 119, 105, 110, 103, 95, 114, 105, 115, 107],                      -- "towing_risk"
  [111, 98, 115, 116, 114, 117, 99, 116, 105, 111, 110],                       -- "obstruction"
  [103, 101, 110, 101, 114, 97, 108]]                                          -- "general"

/-- constants module `ALERT_TYPE_MAP`: the 8 lowercase canonical keys followed
by the 8 UPPERCASE legacy keys (the uppercase spelling of each identifier is
its pointwise ASCII uppercasing), each mapped to the canonical variant. -/
def ALERT_TYPE_MAP : List (List Nat × AlertType) :=
  alertTypeList.map (fun t => (alertTypeCodes t, t)) ++
  alertTypeList.map (fun t => ((alertTypeCodes t).map upNat, t))

/-- constants module `normalizeAlertType`: trim; exact lookup in
`ALERT_TYPE_MAP`; else lowercase and accept if listed in `ALERT_TYPES`
(returning the corresponding variant); else warn and default to `general`. -/
def normalizeAlertType (input : List Nat) : AlertType :=
  match ALERT_TYPE_MAP.find? fun kv => kv.1 == jsTrim input with
  | some kv => kv.2
  | none =>
    match alertTypeList.find? fun t =>
        alertTypeCodes t == (jsTrim input).map lowNat with
    | some t => t
    | none => AlertType.general

/-- The `type` fields of `ALERT_TYPE_CONFIGS` (constants module), in source
order; the labels, icons and colors are UI metadata. -/
def ALERT_TYPE_CONFIGS_types : List AlertType := alertTypeList

end AlertTypes

/-- src/lib/api.ts `createAlert`: the alert-type field of the POST payload is
`normalizeAlertType(alertType)` — the normalization boundary between caller
input and the wire format. -/
def createAlertPayloadAlertType (alertType : List Nat) : AlertTypes.AlertType :=
  AlertTypes.normalizeAlertType alertType

namespace TypesAlerts

/-!
src/types/alerts.ts constants.  `DEFAULT_RADIUS_KM = 2`, `MIN_RADIUS_KM =
0.5`, `MAX_RADIUS_KM = 5`; the JavaScript number literals involved are exact
binary rationals, modelled in `ℚ`.
-/

def ALERT_EXPIRY_DAYS : Nat := 30

def DEFAULT_RADIUS_KM : ℚ := 2

def MIN_RADIUS_KM : ℚ := 1 / 2

def MAX_RADIUS_KM : ℚ := 5

/-- The `type` fields of the `ALERT_TYPES` config array of
src/types/alerts.ts, in source order. -/
def ALERT_TYPES_config_types : List AlertTypes.AlertType :=
  [.lights_on, .window_open, .alarm_triggered, .parking_issue,
   .damage_spotted, .towing_risk, .obstruction, .general]

end TypesAlerts

namespace Part004

/-! src/unnamed/part_004 constants (re-exporting module). -/

def ALERT_EXPIRY_DAYS : Nat := 30

def DEFAULT_RADIUS_KM : ℚ := 2

def MIN_RADIUS_KM : ℚ := 1 / 2

def MAX_RADIUS_KM : ℚ := 5

end Part004

/-- The character class `[a-zA-Z0-9_-]` of the QR-token regular expression in
src/app/settings.tsx. -/
def qrTokenChar (n : Nat) : Bool :=
  (decide (97 ≤ n) && decide (n ≤ 122)) ||
  (decide (65 ≤ n) && decide (n ≤ 90)) ||
  (decide (48 ≤ n) && decide (n ≤ 57)) || n == 95 || n == 45

/-- The literal "/vehicle/" of the QR-token regular expression. -/
def vehicleSeg : List Nat := [47, 118, 101, 104, 105, 99, 108, 101, 47]

/-- Leftmost match of `/\/vehicle\/([a-zA-Z0-9_-]+)$/` against the payload:
at each start position the engine requires the literal "/vehicle/" followed by
a nonempty run of token characters extending to the end of the string ('/' is
not a token character, so nothing short of the whole remainder can reach the
anchor); on failure it retries from the next position. -/
def vehicleMatch : List Nat → Option (List Nat)
  | [] => none
  | c :: rest =>
    if vehicleSeg.isPrefixOf (c :: rest) ∧
       ((c :: rest).drop 9).all qrTokenChar = true ∧
       ((c :: rest).drop 9) ≠ []
    then some ((c :: rest).drop 9)
    else vehicleMatch rest

/-- src/app/settings.tsx `extractQrToken`: the capture of the
`.../vehicle/{token}` regular expression if it matches, otherwise the raw
payload when it is at least 20 characters long and contains no '/' (47),
otherwise null. -/
def extractQrToken (data : List Nat) : Option (List Nat) :=
  match vehicleMatch data with
  | some tok => some tok
  | none =>
    if 20 ≤ data.length ∧ 47 ∉ data then some data else none

/-! ### Shared helper lemmas -/

/-- ASCII uppercasing is idempotent. -/
theorem upNat_idem (n : Nat) : upNat (upNat n) = upNat n := by
  unfold upNat
  split
  · split <;> omega
  · rfl

/-- White-space code points are below 97 or fixed by `upNat`; in particular
uppercasing never produces or destroys a stripped character (lib strip set). -/
theorem keepChar_upNat (n : Nat) : keepChar (upNat n) = keepChar n := by
  by_cases h : 97 ≤ n ∧ n ≤ 122
  · have h1 : keepChar (n - 32) = true := by
      simp only [keepChar, jsWs, Bool.not_eq_true', Bool.or_eq_false_iff,
        beq_eq_false_iff_ne, ne_eq, Bool.and_eq_false_iff, decide_eq_false_iff_not]
      omega
    have h2 : keepChar n = true := by
      simp only [keepChar, jsWs, Bool.not_eq_true', Bool.or_eq_false_iff,
        beq_eq_false_iff_ne, ne_eq, Bool.and_eq_false_iff, decide_eq_false_iff_not]
      omega
    simp [upNat, h, h1, h2]
  · simp [upNat, h]

/-- Uppercasing never produces or destroys a stripped character (part_005
strip set, no underscore). -/
theorem part005_keepChar_upNat (n : Nat) : Part005.keepChar (upNat n) = Part005.keepChar n := by
  by_cases h : 97 ≤ n ∧ n ≤ 122
  · have h1 : Part005.keepChar (n - 32) = true := by
      simp only [Part005.keepChar, jsWs, Bool.not_eq_true', Bool.or_eq_false_iff,
        beq_eq_false_iff_ne, ne_eq, Bool.and_eq_false_iff, decide_eq_false_iff_not]
      omega
    have h2 : Part005.keepChar n = true := by
      simp only [Part005.keepChar, jsWs, Bool.not_eq_true', Bool.or_eq_false_iff,
        beq_eq_false_iff_ne, ne_eq, Bool.and_eq_false_iff, decide_eq_false_iff_not]
      omega
    simp [upNat, h, h1, h2]
  · simp [upNat, h]

/-- Filtering with a predicate invariant under `upNat` commutes with the
uppercasing map. -/
theorem filter_map_upNat (p : Nat → Bool) (hp : ∀ n, p (upNat n) = p n) :
    ∀ l : List Nat, (l.map upNat).filter p = (l.filter p).map upNat := by
  intro l
  induction l with
  | nil => rfl
  | cons c rest ih =>
    by_cases h : p c
    · simp [List.filter_cons, hp, h, ih]
    · simp [List.filter_cons, hp, h, ih]

/-- Dropping a leading run of white space does not change the result of a
filter that discards white space. -/
theorem filter_dropWhile_jsWs (p : Nat → Bool) (hp : ∀ n, jsWs n = true → p n = false) :
    ∀ l : List Nat, (l.dropWhile jsWs).filter p = l.filter p := by
  intro l
  induction l with
  | nil => rfl
  | cons c rest ih =>
    by_cases h : jsWs c
    · rw [List.dropWhile_cons_of_pos h, ih, List.filter_cons, if_neg (by simp [hp c h])]
    · rw [List.dropWhile_cons_of_neg h]

/-- Trimming does not change the result of a filter that discards white
space. -/
theorem filter_jsTrim (p : Nat → Bool) (hp : ∀ n, jsWs n = true → p n = false)
    (l : List Nat) : (jsTrim l).filter p = l.filter p := by
  unfold jsTrim
  rw [List.filter_reverse, filter_dropWhile_jsWs p hp, List.filter_reverse,
    List.reverse_reverse, filter_dropWhile_jsWs p hp]

/-- The lib strip predicate discards white space. -/
theorem keepChar_of_jsWs (n : Nat) (h : jsWs n = true) : keepChar n = false := by
  simp [keepChar, h]

/-- The part_005 strip predicate discards white space. -/
theorem part005_keepChar_of_jsWs (n : Nat) (h : jsWs n = true) : Part005.keepChar n = false := by
  simp [Part005.keepChar, h]

/-- `normalizeLicensePlate` is uppercasing followed by stripping: the interior
trim is absorbed by the strip, and the empty-string guard is vacuous. -/
theorem normalize_eq_filter (p : List Nat) :
    normalizeLicensePlate p = (p.map upNat).filter keepChar := by
  unfold normalizeLicensePlate
  split
  · simp_all
  · exact filter_jsTrim keepChar keepChar_of_jsWs _

/-- part_005 `normalizeLicensePlate` is uppercasing followed by its (weaker)
strip. -/
theorem part005_normalize_eq_filter (p : List Nat) :
    Part005.normalizeLicensePlate p = (p.map upNat).filter Part005.keepChar := by
  unfold Part005.normalizeLicensePlate
  split
  · simp_all
  · exact filter_jsTrim Part005.keepChar part005_keepChar_of_jsWs _

/-- `normalizeLicensePlate` is idempotent. -/
theorem normalizePlate_idem (p : List Nat) :
    normalizeLicensePlate (normalizeLicensePlate p) = normalizeLicensePlate p := by
  rw [normalize_eq_filter, normalize_eq_filter p,
    filter_map_upNat keepChar keepChar_upNat, List.filter_filter]
  rw [show (fun a => keepChar a && keepChar a) = keepChar from funext fun a => Bool.and_self _]
  rw [filter_map_upNat keepChar keepChar_upNat p, List.map_map]
  exact List.map_congr_left fun n _ => upNat_idem n

/-- `List.find?` returns the entry at index `i` when it satisfies the
predicate and nothing before it does. -/
theorem find?_eq_of_first {α : Type} (l : List α) (p : α → Bool) :
    ∀ (i : Nat) (r : α), l[i]? = some r → p r = true →
    (∀ r' ∈ l.take i, p r' = false) → l.find? p = some r := by
  induction l with
  | nil => intro i r hget; simp at hget
  | cons c rest ih =>
    intro i r hget hp hprev
    cases i with
    | zero =>
      simp at hget
      subst hget
      exact List.find?_cons_of_pos rest hp
    | succ j =>
      have hc : p c = false := hprev c (by simp [List.take_succ_cons])
      rw [List.find?_cons_of_neg rest (by simp [hc])]
      exact ih j r (by simpa using hget) hp
        (fun r' hr' => hprev r' (by simp [List.take_succ_cons]; exact Or.inr hr'))

/-- One step of the scan of `vehicleMatch`. -/
theorem vehicleMatch_cons (c : Nat) (rest : List Nat) :
    vehicleMatch (c :: rest) =
      if vehicleSeg.isPrefixOf (c :: rest) ∧
         ((c :: rest).drop 9).all qrTokenChar = true ∧ ((c :: rest).drop 9) ≠ []
      then some ((c :: rest).drop 9)
      else vehicleMatch rest := rfl

/-- A payload ending in "/vehicle/" followed by a nonempty run of token
characters makes the regular expression match with that run as the capture. -/
theorem vehicleMatch_append (pre tok : List Nat) (hne : tok ≠ [])
    (hcl : tok.all qrTokenChar = true) :
    vehicleMatch (pre ++ vehicleSeg ++ tok) = some tok := by
  induction pre with
  | nil =>
    have h2 : (vehicleSeg ++ tok).drop 9 = tok := List.drop_left vehicleSeg tok
    have h1 : vehicleSeg.isPrefixOf (vehicleSeg ++ tok) = true := by
      rw [ List.isPrefixOf_iff_prefix]
      exact List.prefix_append _ _
    rw [List.nil_append,
      show vehicleSeg ++ tok = 47 :: ([118, 101, 104, 105, 99, 108, 101, 47] ++ tok) from rfl,
      vehicleMatch_cons,
      show (47 : Nat) :: ([118, 101, 104, 105, 99, 108, 101, 47] ++ tok) = vehicleSeg ++ tok from rfl,
      if_pos ⟨h1, by rw [h2]; exact hcl, by rw [h2]; exact hne⟩, h2]
  | cons c pre' ih =>
    have hx : (c :: pre') ++ vehicleSeg ++ tok =
        (c :: (pre' ++ [47, 118, 101, 104, 105, 99, 108, 101])) ++ (47 :: tok) := by
      simp [vehicleSeg]
    have hzero : 9 - (c :: (pre' ++ [47, 118, 101, 104, 105, 99, 108, 101])).length = 0 := by
      simp
    have hdrop : ((c :: pre') ++ vehicleSeg ++ tok).drop 9 =
        ((c :: (pre' ++ [47, 118, 101, 104, 105, 99, 108, 101])).drop 9) ++ (47 :: tok) := by
      rw [hx, List.drop_append_eq_append_drop, hzero, List.drop_zero]
    have hall : (((c :: pre') ++ vehicleSeg ++ tok).drop 9).all qrTokenChar = false := by
      rw [hdrop, List.all_append]
      simp [qrTokenChar]
    rw [show (c :: pre') ++ vehicleSeg ++ tok = c :: (pre' ++ vehicleSeg ++ tok) from by simp,
      vehicleMatch_cons]
    rw [show c :: (pre' ++ vehicleSeg ++ tok) = (c :: pre') ++ vehicleSeg ++ tok from by simp]
    rw [if_neg (by rintro ⟨-, hcontr, -⟩; rw [hall] at hcontr; exact Bool.false_ne_true hcontr)]
    exact ih

/-- A payload with no '/' cannot contain the "/vehicle/" literal, so the
regular expression cannot match. -/
theorem vehicleMatch_none_of_no_slash (s : List Nat) (h : 47 ∉ s) :
    vehicleMatch s = none := by
  induction s with
  | nil => rfl
  | cons c rest ih =>
    rw [vehicleMatch_cons, if_neg, ih (fun hm => h (List.mem_cons_of_mem c hm))]
    rintro ⟨hpre, -, -⟩
    rw [ List.isPrefixOf_iff_prefix] at hpre
    obtain ⟨t, ht⟩ := hpre
    simp [vehicleSeg] at ht
    exact h (ht.1 ▸ List.mem_cons_self c rest)

/-- Soundness of the scan: a match decomposes the payload as
`pre ++ "/vehicle/" ++ capture`. -/
theorem vehicleMatch_some (s tok : List Nat) (h : vehicleMatch s = some tok) :
    ∃ pre, s = pre ++ vehicleSeg ++ tok ∧ tok ≠ [] ∧ tok.all qrTokenChar = true := by
  induction s with
  | nil => simp [vehicleMatch] at h
  | cons c rest ih =>
    rw [vehicleMatch_cons] at h
    split at h
    · rename_i hcond
      obtain ⟨hpre, hall, hne⟩ := hcond
      have hd : (c :: rest).drop 9 = tok := by injection h
      rw [ List.isPrefixOf_iff_prefix] at hpre
      obtain ⟨t, ht⟩ := hpre
      have htt : t = (c :: rest).drop 9 := by
        rw [← ht]
        exact (List.drop_left vehicleSeg t).symm
      exact ⟨[], by rw [List.nil_append, ← ht, htt, hd], hd ▸ hne, hd ▸ hall⟩
    · obtain ⟨pre, hp, hh1, hh2⟩ := ih h
      exact ⟨c :: pre, by rw [hp]; simp, hh1, hh2⟩

/-- The two strip predicates agree away from the underscore (95). -/
theorem part005_keepChar_eq (n : Nat) (h : n ≠ 95) :
    Part005.keepChar n = keepChar n := by
  have h95 : (n == 95) = false := by simpa using h
  simp [Part005.keepChar, keepChar, h95]

/-- Filtering with either strip predicate agrees on underscore-free lists. -/
theorem filter005_eq_filter (l : List Nat) (h : 95 ∉ l) :
    l.filter Part005.keepChar = l.filter keepChar := by
  induction l with
  | nil => rfl
  | cons c rest ih =>
    have hc : c ≠ 95 := fun he => h (he ▸ List.mem_cons_self c rest)
    rw [List.filter_cons, List.filter_cons, part005_keepChar_eq c hc,
      ih (fun hm => h (List.mem_cons_of_mem c hm))]

/-- Uppercasing never introduces an underscore. -/
theorem upNat_no_underscore (p : List Nat) (h : 95 ∉ p) : 95 ∉ p.map upNat := by
  simp only [List.mem_map]
  rintro ⟨n, hn, he⟩
  unfold upNat at he
  split at he
  · omega
  · exact h (he ▸ hn)

/-- The canonical spelling of every variant is listed in `ALERT_TYPES`. -/
theorem alertTypeCodes_mem (t : AlertTypes.AlertType) :
    AlertTypes.alertTypeCodes t ∈ AlertTypes.ALERT_TYPES := by
  cases t <;> decide

/-- Lowercasing any key of `ALERT_TYPE_MAP` lands in `ALERT_TYPES`. -/
theorem map_key_lower_mem :
    ∀ kv ∈ AlertTypes.ALERT_TYPE_MAP, kv.1.map lowNat ∈ AlertTypes.ALERT_TYPES := by
  decide

/-! ### Claim theorems -/

/-- C1 (counterexample): the claim "unrecognized values are rejected, never
silently coerced to 'general'" is false at the concrete input "banana"
(code points [98,97,110,97,110,97]): its trimmed lowercase form is not one of
the eight alert types, yet the normalization boundary used by `createAlert`
returns the canonical variant `general`. -/
theorem claim_C1_cex :
    createAlertPayloadAlertType [98, 97, 110, 97, 110, 97] = AlertTypes.AlertType.general ∧
    (jsTrim [98, 97, 110, 97, 110, 97]).map lowNat ∉ AlertTypes.ALERT_TYPES := by
  exact ⟨by decide, by decide⟩

/-- C1 (amended): for every input whose trimmed, lowercased form is not one of
the eight alert-type spellings, the normalization boundary used by
`createAlert` silently coerces the value to the canonical type `general`
(after a console warning); it never rejects. -/
theorem claim_C1_amended (s : List Nat)
    (h : (jsTrim s).map lowNat ∉ AlertTypes.ALERT_TYPES) :
    createAlertPayloadAlertType s = AlertTypes.AlertType.general := by
  unfold createAlertPayloadAlertType AlertTypes.normalizeAlertType
  cases hf : AlertTypes.ALERT_TYPE_MAP.find? fun kv => kv.1 == jsTrim s with
  | some kv =>
    exfalso
    have hmem := List.mem_of_find?_eq_some hf
    have hkey : kv.1 = jsTrim s := by simpa using List.find?_some hf
    exact h (hkey ▸ map_key_lower_mem kv hmem)
  | none =>
    cases hg : AlertTypes.alertTypeList.find? fun t =>
        AlertTypes.alertTypeCodes t == (jsTrim s).map lowNat with
    | some t =>
      exfalso
      have hcodes : AlertTypes.alertTypeCodes t = (jsTrim s).map lowNat := by
        simpa using List.find?_some hg
      exact h (hcodes ▸ alertTypeCodes_mem t)
    | none => simp [hf, hg]

/-- C1 (witness): the amended theorem applied at the concrete unrecognized
input "URGENT" (code points [85,82,71,69,78,84]). -/
theorem claim_C1_witness :
    (jsTrim [85, 82, 71, 69, 78, 84]).map lowNat ∉ AlertTypes.ALERT_TYPES ∧
    createAlertPayloadAlertType [85, 82, 71, 69, 78, 84] = AlertTypes.AlertType.general :=
  ⟨by decide, claim_C1_amended [85, 82, 71, 69, 78, 84] (by decide)⟩

/-- C2 (counterexample): "ABC123" ([65,66,67,49,50,51]) matches Belgium's
more specific fixed-length pattern `^[A-Z]{3}[0-9]{3}$`, which sits in
`PLATE_RULES`, yet `detectPlateCountry` attributes the plate to Germany,
because Germany's permissive patterns are placed before Belgium's: the claim
that such a plate is never attributed to Germany is false. -/
theorem claim_C2_cex :
    (⟨Country.BE, [al 3 3, dg 3 3]⟩ : PlateRule) ∈ PLATE_RULES ∧
    ruleMatches ⟨Country.BE, [al 3 3, dg 3 3]⟩
      (normalizeLicensePlate [65, 66, 67, 49, 50, 51]) = true ∧
    detectPlateCountry [65, 66, 67, 49, 50, 51] = some Country.DE ∧
    Country.DE ≠ Country.BE := by
  exact ⟨by decide, by decide, by decide, by decide⟩

/-- C2 (amended): plate validation returns the country of the first rule in
the fixed ordered `PLATE_RULES` list that matches the normalized plate (first
matching rule wins).  Germany's permissive patterns are tried after the
GB/IE/PT/ES/FR patterns but BEFORE the IT/NL/BE/CH/AT/SE/NO/DK/PL patterns,
so a plate that also matches one of those later, more specific patterns (e.g.
"ABC123", which matches Belgium) IS attributed to Germany. -/
theorem claim_C2_amended :
    (∀ (p : List Nat) (i : Nat) (r : PlateRule),
        PLATE_RULES[i]? = some r →
        ruleMatches r (normalizeLicensePlate p) = true →
        (∀ r' ∈ PLATE_RULES.take i, ruleMatches r' (normalizeLicensePlate p) = false) →
        detectPlateCountry p = some r.countryCode) ∧
    detectPlateCountry [65, 66, 67, 49, 50, 51] = some Country.DE := by
  refine ⟨?_, by decide⟩
  intro p i r hget hm hprev
  unfold detectPlateCountry
  rw [find?_eq_of_first PLATE_RULES _ i r hget hm hprev]
  rfl

/-- C2 (witness): the amended first-match theorem applied at the concrete
plate "BAB1234" ([66,65,66,49,50,51,52]) and Germany's first rule, at index 8
of `PLATE_RULES`; no earlier rule matches. -/
theorem claim_C2_witness :
    detectPlateCountry [66, 65, 66, 49, 50, 51, 52] = some Country.DE :=
  claim_C2_amended.1 [66, 65, 66, 49, 50, 51, 52] 8 ⟨Country.DE, [al 1 3, al 1 2, dg 1 4]⟩
    (by decide) (by decide) (by decide)

/-- C3: `normalizeLicensePlate` uppercases its input, trims it, and strips
all white space, dashes, dots and underscores — equivalently, it is pointwise
ASCII uppercasing followed by removal of every stripped character (the trim is
absorbed by the strip); in particular "ab-12 cde" normalizes to "AB12CDE". -/
theorem claim_C3 :
    (∀ p : List Nat, normalizeLicensePlate p = (p.map upNat).filter keepChar) ∧
    normalizeLicensePlate [97, 98, 45, 49, 50, 32, 99, 100, 101] =
      [65, 66, 49, 50, 67, 68, 69] :=
  ⟨normalize_eq_filter, by decide⟩

/-- C4: whenever the normalized plate is shorter than 4 or longer than 10
characters, `validateLicensePlate` returns `isValid = false` with no matched
country (the length guard precedes any pattern matching in the source, and
the result record is exactly the early-return record). -/
theorem claim_C4 (p : List Nat)
    (h : (normalizeLicensePlate p).length < 4 ∨ 10 < (normalizeLicensePlate p).length) :
    validateLicensePlate p = ⟨false, none, normalizeLicensePlate p⟩ := by
  unfold validateLicensePlate
  split <;> rfl

/-- C4 (witness): the theorem applied at the concrete too-short plate "AB". -/
theorem claim_C4_witness :
    (normalizeLicensePlate [65, 66]).length < 4 ∧
    validateLicensePlate [65, 66] = ⟨false, none, normalizeLicensePlate [65, 66]⟩ :=
  ⟨by decide, claim_C4 [65, 66] (Or.inl (by decide))⟩

/-- C5: the accepted alert types are exactly the eight lowercase canonical
values: the `ALERT_TYPES` array is the list of canonical spellings of the
eight variants, in order, without duplicates; every variant of the `AlertType`
union occurs; the config arrays of both the constants module and
src/types/alerts.ts enumerate the same eight variants; and every listed
spelling is strictly lowercase (lowercase letters and underscores). -/
theorem claim_C5 :
    AlertTypes.ALERT_TYPES = AlertTypes.alertTypeList.map AlertTypes.alertTypeCodes ∧
    AlertTypes.ALERT_TYPES.Nodup ∧
    AlertTypes.alertTypeList.Nodup ∧
    (∀ t : AlertTypes.AlertType, t ∈ AlertTypes.alertTypeList) ∧
    AlertTypes.ALERT_TYPE_CONFIGS_types = AlertTypes.alertTypeList ∧
    TypesAlerts.ALERT_TYPES_config_types = AlertTypes.alertTypeList ∧
    (AlertTypes.ALERT_TYPES.all fun s =>
      s.all fun n => (decide (97 ≤ n) && decide (n ≤ 122)) || n == 95) = true := by
  refine ⟨by decide, by decide, by decide, ?_, rfl, rfl, by decide⟩
  intro t
  cases t <;> decide

/-- C6: `extractQrToken` (a) returns the trailing run of token characters
when the payload ends in `.../vehicle/{token}` with a nonempty token; (b)
returns the payload itself when the payload contains no '/' and is at least
20 characters long; (c) yields no token in every other case (no such
decomposition, and the payload contains a '/' or is shorter than 20). -/
theorem claim_C6 :
    (∀ pre tok : List Nat, tok ≠ [] → tok.all qrTokenChar = true →
        extractQrToken (pre ++ vehicleSeg ++ tok) = some tok) ∧
    (∀ s : List Nat, 47 ∉ s → 20 ≤ s.length → extractQrToken s = some s) ∧
    (∀ s : List Nat,
        (∀ pre tok : List Nat, tok ≠ [] → tok.all qrTokenChar = true →
          s ≠ pre ++ vehicleSeg ++ tok) →
        (47 ∈ s ∨ s.length < 20) → extractQrToken s = none) := by
  refine ⟨?_, ?_, ?_⟩
  · intro pre tok hne hcl
    unfold extractQrToken
    rw [vehicleMatch_append pre tok hne hcl]
  · intro s hns hlen
    unfold extractQrToken
    rw [vehicleMatch_none_of_no_slash s hns, if_pos ⟨hlen, hns⟩]
  · intro s hdec hbad
    unfold extractQrToken
    cases hvm : vehicleMatch s with
    | some tok =>
      exfalso
      obtain ⟨pre, hp, hne, hcl⟩ := vehicleMatch_some s tok hvm
      exact hdec pre tok hne hcl hp
    | none =>
      rw [if_neg]
      rintro ⟨hlen, hns⟩
      cases hbad with
      | inl hmem => exact hns hmem
      | inr hshort => omega

/-- C6 (witness): the theorem's URL case applied at the concrete payload
"https://vizinhoalert.eu/vehicle/abc123" and its raw-token case at a
20-character token with no '/' . -/
theorem claim_C6_witness :
    extractQrToken ([104, 116, 116, 112, 115, 58, 47, 47, 118, 105, 122, 105, 110,
        104, 111, 97, 108, 101, 114, 116, 46, 101, 117] ++ vehicleSeg ++
        [97, 98, 99, 49, 50, 51]) = some [97, 98, 99, 49, 50, 51] ∧
    extractQrToken [97, 97, 97, 97, 97, 97, 97, 97, 97, 97, 97, 97, 97, 97, 97,
        97, 97, 97, 97, 97] = some [97, 97, 97, 97, 97, 97, 97, 97, 97, 97, 97,
        97, 97, 97, 97, 97, 97, 97, 97, 97] :=
  ⟨claim_C6.1 [104, 116, 116, 112, 115, 58, 47, 47, 118, 105, 122, 105, 110,
      104, 111, 97, 108, 101, 114, 116, 46, 101, 117] [97, 98, 99, 49, 50, 51]
      (by decide) (by decide),
   claim_C6.2.1 [97, 97, 97, 97, 97, 97, 97, 97, 97, 97, 97, 97, 97, 97, 97,
      97, 97, 97, 97, 97] (by decide) (by decide)⟩

/-- C7 (counterexample): the claim "the program's maximum radius constant is
10.0" is false: `MAX_RADIUS_KM` is 5 in src/types/alerts.ts and in
src/unnamed/part_004. -/
theorem claim_C7_cex :
    TypesAlerts.MAX_RADIUS_KM = 5 ∧ TypesAlerts.MAX_RADIUS_KM ≠ 10 ∧
    Part004.MAX_RADIUS_KM = 5 ∧ Part004.MAX_RADIUS_KM ≠ 10 := by
  refine ⟨rfl, by norm_num [TypesAlerts.MAX_RADIUS_KM], rfl,
    by norm_num [Part004.MAX_RADIUS_KM]⟩

/-- C7 (amended): the device alert radius is bounded to [0.5, 5] km by the
program's constants: the minimum radius constant is 0.5 and the maximum
radius constant is 5, consistently in src/types/alerts.ts and
src/unnamed/part_004 (the nonempty interval claim `min < max` included). -/
theorem claim_C7_amended :
    TypesAlerts.MIN_RADIUS_KM = 1 / 2 ∧ TypesAlerts.MAX_RADIUS_KM = 5 ∧
    TypesAlerts.MIN_RADIUS_KM < TypesAlerts.MAX_RADIUS_KM ∧
    Part004.MIN_RADIUS_KM = TypesAlerts.MIN_RADIUS_KM ∧
    Part004.MAX_RADIUS_KM = TypesAlerts.MAX_RADIUS_KM := by
  refine ⟨rfl, rfl, ?_, rfl, rfl⟩
  norm_num [TypesAlerts.MIN_RADIUS_KM, TypesAlerts.MAX_RADIUS_KM]

/-- C8: plate validation is stable under normalization: `normalizeLicensePlate`
is idempotent, and validating a pre-normalized plate returns the very same
result record (same `isValid`, same `matchedCountry`, same `normalized`) as
validating the raw plate. -/
theorem claim_C8 (p : List Nat) :
    normalizeLicensePlate (normalizeLicensePlate p) = normalizeLicensePlate p ∧
    validateLicensePlate (normalizeLicensePlate p) = validateLicensePlate p := by
  refine ⟨normalizePlate_idem p, ?_⟩
  unfold validateLicensePlate
  rw [normalizePlate_idem p]

/-- C9: the error-message function and the validator agree:
`getLicensePlateError` returns no error exactly when `validateLicensePlate`
deems the plate valid. -/
theorem claim_C9 (p : List Nat) :
    getLicensePlateError p = none ↔ (validateLicensePlate p).isValid = true := by
  unfold getLicensePlateError validateLicensePlate
  by_cases h1 : (normalizeLicensePlate p).isEmpty
  · simp [h1]
  · by_cases h2 : (normalizeLicensePlate p).length < 4
    · simp [h1, h2]
    · by_cases h3 : 10 < (normalizeLicensePlate p).length
      · simp [h1, h2, h3]
      · cases hd : detectPlateCountry (normalizeLicensePlate p) with
        | some c => simp [h1, h2, h3, hd]
        | none => simp [h1, h2, h3, hd]

/-- C10 (counterexample): the two plate validators disagree at the concrete
input "AB_12CDE" ([65,66,95,49,50,67,68,69]): the licensePlate.ts validator
strips the underscore and accepts it, while the part_005 validator keeps the
underscore and rejects it, and the two normalized strings differ. -/
theorem claim_C10_cex :
    (validateLicensePlate [65, 66, 95, 49, 50, 67, 68, 69]).isValid = true ∧
    (Part005.validateLicensePlate [65, 66, 95, 49, 50, 67, 68, 69]).isValid = false ∧
    (validateLicensePlate [65, 66, 95, 49, 50, 67, 68, 69]).normalized ≠
      (Part005.validateLicensePlate [65, 66, 95, 49, 50, 67, 68, 69]).normalized := by
  exact ⟨by decide, by decide, by decide⟩

/-- C10 (amended): the two validators are not equivalent (their pattern
tables and underscore handling differ); what does hold is that their
normalizers agree on every input containing no underscore. -/
theorem claim_C10_amended (p : List Nat) (h : 95 ∉ p) :
    Part005.normalizeLicensePlate p = normalizeLicensePlate p := by
  rw [part005_normalize_eq_filter, normalize_eq_filter]
  exact filter005_eq_filter _ (upNat_no_underscore p h)

/-- C10 (witness): the amended theorem applied at the underscore-free
concrete input "AB-12 CDE". -/
theorem claim_C10_witness :
    Part005.normalizeLicensePlate [65, 66, 45, 49, 50, 32, 67, 68, 69] =
      normalizeLicensePlate [65, 66, 45, 49, 50, 32, 67, 68, 69] :=
  claim_C10_amended [65, 66, 45, 49, 50, 32, 67, 68, 69] (by decide)
